import Mathlib

/-
Shallow embedding of the tunnel-forwarding and database-discovery subsystem of
pgbouncer-config-rs, covering `pgbouncer-config/src/pgbouncer_config/databases_setting.rs`,
`pgbouncer-config/src/utils/ssh_tunnel.rs` and `pgbouncer-config/src/error.rs`.

Rust `String` embeds as `String`, `u16` ports embed as `Nat` (the code performs no
arithmetic on ports, only copies and comparisons), and every effectful step (tokio
task join, SSH handshake, Postgres query) is passed in as an explicit oracle value
describing the outcome of that external step, so all definitions are executable.
-/

/-- Embeds the `PgBouncerError` enum of `error.rs`. Each variant carries the message
string of its payload (foreign error payloads are summarised by their message). -/
inductive PgBouncerError where
  | Sqlx : String → PgBouncerError
  | PgBouncer : String → PgBouncerError
  | Io : String → PgBouncerError
  | Regex : String → PgBouncerError
  | Join : String → PgBouncerError
  | SshConnection : String → PgBouncerError
  | SshKey : String → PgBouncerError
  | SshAuth : String → PgBouncerError
  | Connection : String → PgBouncerError
  deriving DecidableEq

/-- Discriminator for the dedicated SSH-authentication-failure variant `SshAuth`. -/
def PgBouncerError.isSshAuth : PgBouncerError → Bool
  | .SshAuth _ => true
  | _ => false

/-- Discriminator for the generic transport-level variant `Connection`. -/
def PgBouncerError.isConnection : PgBouncerError → Bool
  | .Connection _ => true
  | _ => false

/-- Embeds the `SSHAuth` enum of `databases_setting.rs`: password, in-memory key
(key material, optional passphrase) or key file on disk (path, optional passphrase).
`PathBuf` embeds as the path string. -/
inductive SSHAuth where
  | Password : String → SSHAuth
  | SSHKey : String → Option String → SSHAuth
  | LocalSSHKeyFile : String → Option String → SSHAuth
  deriving DecidableEq

/-- Boolean lexicographic order on `List Char`, comparing code points. This is the
order `Vec::sort` uses on the `String` database names (Rust orders strings
byte-lexicographically; on the names involved here this coincides with
code-point-lexicographic order, and nothing in the verified claims depends on which
total order the sort uses). -/
def charListLe : List Char → List Char → Bool
  | [], _ => true
  | _ :: _, [] => false
  | a :: as, b :: bs =>
    if a.toNat < b.toNat then true
    else if b.toNat < a.toNat then false
    else charListLe as bs

/-- Order on `String` induced by `charListLe` on the underlying character lists. -/
def strLe (a b : String) : Prop := charListLe a.data b.data = true

instance : DecidableRel strLe :=
  fun a b => inferInstanceAs (Decidable (charListLe a.data b.data = true))

/-- Embeds `Vec::sort` on `Vec<String>`. Any comparison sort yields the same list
here, because equal strings are indistinguishable; insertion sort is used as the
executable model. -/
def sortStrings (l : List String) : List String := List.insertionSort strLe l

/-- Worker for `dedupConsec`: `a` is the last element kept so far. -/
def dedupConsecGo (a : String) : List String → List String
  | [] => [a]
  | b :: l => if a = b then dedupConsecGo a l else a :: dedupConsecGo b l

/-- Embeds `Vec::dedup` on `Vec<String>`: removes consecutive repeated elements,
keeping the first element of each run. -/
def dedupConsec : List String → List String
  | [] => []
  | a :: l => dedupConsecGo a l

/-- Embeds the `SSHTunnelBuilder` struct of `databases_setting.rs` (the spec's
TunnelSpec): bastion host/port, bastion user, auth method, optional local bind port
and the remote target host/port. -/
structure SSHTunnelBuilder where
  host : String
  port : Option Nat
  user : String
  auth : SSHAuth
  local_port : Option Nat
  remote_host : String
  remote_port : Option Nat
  deriving DecidableEq

/-- Embeds `SSHTunnelBuilder::new`: the given host, user, auth and remote host, with
`port`, `local_port` and `remote_port` initialised to `None`. -/
def SSHTunnelBuilder.new (host : String) (user : String) (auth : SSHAuth)
    (remote_host : String) : SSHTunnelBuilder :=
  { host := host
    port := none
    user := user
    auth := auth
    local_port := none
    remote_host := remote_host
    remote_port := none }

/-- Embeds the `Database` struct of `databases_setting.rs` (the spec's Route): one
backend routing entry. -/
structure Database where
  host : String
  port : Nat
  user : String
  password : String
  databases : List String
  ignore_databases : List String
  ssh_tunneling : Option SSHTunnelBuilder
  is_output_credentials_to_config : Bool
  deriving DecidableEq

/-- Embeds `Database::new`: copies the optional initial name list verbatim (`None`
becomes the empty list), with empty ignore list, no tunnel and the credential-output
flag off. -/
def Database.new (host : String) (port : Nat) (user : String) (password : String)
    (databases : Option (List String)) : Database :=
  { host := host
    port := port
    user := user
    password := password
    databases := databases.getD []
    ignore_databases := []
    ssh_tunneling := none
    is_output_credentials_to_config := false }

/-- Embeds `Database::push_databases`: extends `databases` with the given names,
then sorts and removes consecutive duplicates (`Vec::sort` followed by
`Vec::dedup`). The source also returns `self.clone()`; the embedding returns the
updated entry. -/
def Database.push_databases (db : Database) (databases : List String) : Database :=
  { db with databases := dedupConsec (sortStrings (db.databases ++ databases)) }

/-- Embeds `Database::add_database`: pushes one name, then sorts and dedups. -/
def Database.add_database (db : Database) (database : String) : Database :=
  { db with databases := dedupConsec (sortStrings (db.databases ++ [database])) }

/-- Embeds `Database::get_databases_from_host`. The oracle `io` summarises the
effectful part of the call for this entry: tunnel setup (when configured),
`PgClient::new` and `client.get_databases()`; `Except.error e` is the error of the
first failing step, `Except.ok names` the query result. On success the names are
merged into `self` via `push_databases`; the embedding returns the updated entry in
place of the source's `Ok(())` with `self` mutated. -/
def Database.get_databases_from_host (db : Database)
    (io : Except PgBouncerError (List String)) : Except PgBouncerError Database :=
  match io with
  | .error e => .error e
  | .ok db_names => .ok (db.push_databases db_names)

/-- Embeds the `DatabasesSetting` struct: the `[databases]` section, a list of
`Database` entries. -/
structure DatabasesSetting where
  databases : List Database
  deriving DecidableEq

/-- Embeds `DatabasesSetting::new`: the empty collection. -/
def DatabasesSetting.new : DatabasesSetting := { databases := [] }

/-- Embeds the backend-identity comparison used by the filter closure in
`DatabasesSetting::add_database`: an existing entry `db` collides with the entry
being added when host, port, user and password are all equal. -/
def sameBackend (db database : Database) : Bool :=
  db.host == database.host && db.port == database.port &&
    db.user == database.user && db.password == database.password

/-- Embeds `DatabasesSetting::merge_databases`: removes the first entry of the list
and folds `push_databases` of every remaining entry's `databases` into it. The
source's `Vec::remove(0)` panics on an empty vector; the function is only ever
called with a non-empty list, and the embedding returns a junk entry there. -/
def DatabasesSetting.merge_databases : List Database → Database
  | [] => Database.new "" 0 "" "" none
  | database :: rest =>
    rest.foldl (fun acc db => acc.push_databases db.databases) database

/-- Embeds `DatabasesSetting::add_database`: collects the clones of the existing
entries that collide with `database` (`sameBackend`); if there are any, appends
`database` to that list, merges it with `merge_databases` and pushes the merged
entry onto `self.databases` (the colliding originals are not removed); otherwise
pushes `database` itself. The source also returns `self.clone()`; the embedding
returns the updated collection. -/
def DatabasesSetting.add_database (s : DatabasesSetting) (database : Database) :
    DatabasesSetting :=
  let same_databases := s.databases.filter (fun db => sameBackend db database)
  if same_databases.length > 0 then
    { databases :=
        s.databases ++ [DatabasesSetting.merge_databases (same_databases ++ [database])] }
  else
    { databases := s.databases ++ [database] }

/-- Embeds the host-filter loop head of `DatabasesSetting::add_database_from_hosts`:
the entries for which a discovery task is spawned. With `target_hosts` of
`Some(hosts)` the local `hosts` vector is that list, with `None` it is empty; an
entry is skipped (`continue`) exactly when `hosts` is non-empty and does not contain
the entry's host. -/
def DatabasesSetting.processedDatabases (s : DatabasesSetting)
    (target_hosts : Option (List String)) : List Database :=
  let hosts : List String := match target_hosts with
    | some hs => hs
    | none => []
  s.databases.filter (fun db => !(decide (hosts.length > 0) && !(hosts.contains db.host)))

/-- Embeds the spawned tasks of `add_database_from_hosts` and their join results.
Each processed entry is cloned and its task runs `get_databases_from_host(None)` on
the clone. The oracle `runTask` gives, per entry, either a task-level join failure
(`Except.error` with the `JoinError` message) or the joined task's oracle for
`get_databases_from_host`. An element of the result is therefore either a join
failure, a functional discovery error, or the successfully updated clone. -/
def DatabasesSetting.taskResults (s : DatabasesSetting)
    (target_hosts : Option (List String))
    (runTask : Database → Except String (Except PgBouncerError (List String))) :
    List (Except String (Except PgBouncerError Database)) :=
  (s.processedDatabases target_hosts).map
    (fun db => (runTask db).map (fun io => db.get_databases_from_host io))

/-- Embeds the aggregation loop `for join_res in join_reses { join_res??; }` after
`join_all`: the first join failure (converted to `PgBouncerError::Join` by `From`)
or the first functional error is returned; otherwise `Ok(())`. -/
def joinAndPropagate :
    List (Except String (Except PgBouncerError Database)) → Except PgBouncerError Unit
  | [] => .ok ()
  | .error join_e :: _ => .error (.Join join_e)
  | .ok (.error e) :: _ => .error e
  | .ok (.ok _) :: rest => joinAndPropagate rest

/-- Classifier for one joined discovery task: true exactly when the task joined and
`get_databases_from_host` succeeded. -/
def taskOk : Except String (Except PgBouncerError Database) → Bool
  | .ok (.ok _) => true
  | _ => false

/-- Error extracted by `join_res??` from a failed task: a join failure converts to
`PgBouncerError::Join`, a functional failure propagates as is. The last arm is
never reached for a task with `taskOk` false. -/
def taskErr : Except String (Except PgBouncerError Database) → PgBouncerError
  | .error join_e => .Join join_e
  | .ok (.error e) => e
  | .ok (.ok _) => .PgBouncer "unreachable"

/-- Embeds `DatabasesSetting::add_database_from_hosts`, returning the pair of the
call's result and the state of the receiver after the call. The receiver is
`&self`: every processed entry is cloned behind `Arc<Mutex<_>>`, each spawned task
mutates only its clone, and after `join_all` the clones go out of scope without
being written back (the source marks this with a TODO comment), so the receiver is
returned unchanged. -/
def DatabasesSetting.add_database_from_hosts (s : DatabasesSetting)
    (target_hosts : Option (List String))
    (runTask : Database → Except String (Except PgBouncerError (List String))) :
    Except PgBouncerError Unit × DatabasesSetting :=
  (joinAndPropagate (s.taskResults target_hosts runTask), s)

/-- Embeds the `SSHTunnel` struct of `ssh_tunnel.rs`: the runnable tunnel with all
optional fields resolved. -/
structure SSHTunnel where
  bastion_host : String
  bastion_port : Nat
  bastion_user : String
  bastion_auth : SSHAuth
  local_port : Nat
  pg_host : String
  pg_port : Nat
  deriving DecidableEq

/-- Embeds `impl From<SSHTunnelBuilder> for SSHTunnel`: unset bastion port defaults
to 22, unset local port to 0 (the OS chooses an ephemeral port when binding port 0),
unset remote port to 5432; all other fields are moved over unchanged. -/
def SSHTunnel.fromBuilder (value : SSHTunnelBuilder) : SSHTunnel :=
  { bastion_host := value.host
    bastion_port := value.port.getD 22
    bastion_user := value.user
    bastion_auth := value.auth
    local_port := value.local_port.getD 0
    pg_host := value.remote_host
    pg_port := value.remote_port.getD 5432 }

/-- Embeds `russh::keys::PublicKey` as an abstract carrier: the server public key
presented during the SSH handshake, summarised by its encoded form. -/
structure PublicKey where
  keyData : String
  deriving DecidableEq

/-- Embeds `ClientHandler::check_server_key`: the server-identity check of the
session handler, `Ok(true)` for every presented key. Errors embed as message
strings. -/
def ClientHandler.check_server_key (_server_public_key : PublicKey) :
    Except String Bool :=
  .ok true

/-- Embeds `std::net::SocketAddr` for the bound local listener address. -/
structure LocalAddr where
  ip : String
  port : Nat
  deriving DecidableEq

deriving instance DecidableEq for Except

/-- Oracle bundle for one `SSHTunnel::run` attempt: the outcome of each effectful
step. `connect` is the transport connection to the bastion (`client::connect`),
`decode_secret_key` / `load_secret_key` the key-material steps of the two key-based
auth arms, `authenticate` the remote's answer to the credential (`Except.error` is a
transport failure during authentication, `Except.ok b` the `AuthResult` whose
`success()` is `b`), and `bind` the local `TcpListener::bind` outcome. -/
structure SshRunEnv where
  connect : Except String Unit
  decode_secret_key : Except String Unit
  load_secret_key : Except String Unit
  authenticate : Except String Bool
  bind : Except String LocalAddr
  deriving DecidableEq

/-- Embeds the authentication `match` of `SSHTunnel::run`: dispatch on the auth
method; key decoding or loading errors convert to `PgBouncerError::SshKey` (via
`From<russh::keys::Error>`), transport errors during authentication to
`PgBouncerError::SshConnection` (via `From<russh::Error>`); otherwise the
`AuthResult` success flag is produced. -/
def SSHTunnel.authResult (t : SSHTunnel) (env : SshRunEnv) :
    Except PgBouncerError Bool :=
  match t.bastion_auth with
  | .Password _ =>
    match env.authenticate with
    | .error e => .error (.SshConnection e)
    | .ok b => .ok b
  | .SSHKey _ _ =>
    match env.decode_secret_key with
    | .error e => .error (.SshKey e)
    | .ok _ =>
      match env.authenticate with
      | .error e => .error (.SshConnection e)
      | .ok b => .ok b
  | .LocalSSHKeyFile _ _ =>
    match env.load_secret_key with
    | .error e => .error (.SshKey e)
    | .ok _ =>
      match env.authenticate with
      | .error e => .error (.SshConnection e)
      | .ok b => .ok b

/-- Embeds `SSHTunnel::run` up to the returned `SSHTunnelHandler`, whose observable
content is the bound local address. Transport connection errors convert to
`PgBouncerError::SshConnection`; when authentication completes but
`auth_success.success()` is false the function returns
`PgBouncerError::Connection("Authentication failed for user {user}")`; listener
bind errors convert to `PgBouncerError::Io`; on success the handler with the bound
local address is returned (the accept loop it spawns serves connections and is not
part of the returned value). -/
def SSHTunnel.run (t : SSHTunnel) (env : SshRunEnv) :
    Except PgBouncerError LocalAddr :=
  match env.connect with
  | .error e => .error (.SshConnection e)
  | .ok _ =>
    match SSHTunnel.authResult t env with
    | .error e => .error e
    | .ok auth_success =>
      if !auth_success then
        .error (.Connection ("Authentication failed for user " ++ t.bastion_user))
      else
        match env.bind with
        | .error e => .error (.Io e)
        | .ok local_addr => .ok local_addr

/-- True when a `run` outcome is an error of the dedicated `SshAuth` variant. -/
def runReturnsSshAuth (r : Except PgBouncerError LocalAddr) : Bool :=
  match r with
  | .error e => e.isSshAuth
  | .ok _ => false

/-- True when a `run` outcome is an error of the generic `Connection` variant. -/
def runReturnsConnection (r : Except PgBouncerError LocalAddr) : Bool :=
  match r with
  | .error e => e.isConnection
  | .ok _ => false

/-- Projection of every `Database` field except `databases`, used to state that
Route merging changes nothing but the database list: host, port, user, password,
ignore list, tunnel spec and the credential-output flag. -/
def Database.nonDatabasesFields (db : Database) :
    String × Nat × String × String × List String × Option SSHTunnelBuilder × Bool :=
  (db.host, db.port, db.user, db.password, db.ignore_databases, db.ssh_tunneling,
    db.is_output_credentials_to_config)

theorem char_toNat_inj {a b : Char} (h : a.toNat = b.toNat) : a = b := by
  cases a; cases b
  simp only [Char.toNat] at h
  congr 1
  exact UInt32.ext h

theorem string_data_inj {a b : String} (h : a.data = b.data) : a = b :=
  String.toList_inj.mp h

theorem charListLe_total : ∀ (as bs : List Char),
    charListLe as bs = true ∨ charListLe bs as = true := by
  intro as
  induction as with
  | nil => intro bs; left; cases bs <;> rfl
  | cons a as ih =>
    intro bs
    cases bs with
    | nil => right; rfl
    | cons b bs =>
      by_cases hab : a.toNat < b.toNat
      · left; simp [charListLe, hab]
      · by_cases hba : b.toNat < a.toNat
        · right; simp [charListLe, hba]
        · simpa [charListLe, hab, hba] using ih bs

theorem charListLe_trans : ∀ (as bs cs : List Char),
    charListLe as bs = true → charListLe bs cs = true → charListLe as cs = true := by
  intro as
  induction as with
  | nil => intro bs cs _ _; cases cs <;> rfl
  | cons a as ih =>
    intro bs cs h1 h2
    cases bs with
    | nil => simp [charListLe] at h1
    | cons b bs =>
      cases cs with
      | nil => simp [charListLe] at h2
      | cons c cs =>
        by_cases hab : a.toNat < b.toNat
        · by_cases hac : a.toNat < c.toNat
          · simp [charListLe, hac]
          · by_cases hbc : b.toNat < c.toNat
            · omega
            · by_cases hcb : c.toNat < b.toNat
              · simp [charListLe, hbc, hcb] at h2
              · omega
        · by_cases hba : b.toNat < a.toNat
          · simp [charListLe, hab, hba] at h1
          · simp only [charListLe, if_neg hab, if_neg hba] at h1
            by_cases hbc : b.toNat < c.toNat
            · have hac : a.toNat < c.toNat := by omega
              simp [charListLe, hac]
            · by_cases hcb : c.toNat < b.toNat
              · simp [charListLe, hbc, hcb] at h2
              · simp only [charListLe, if_neg hbc, if_neg hcb] at h2
                have hac1 : ¬ a.toNat < c.toNat := by omega
                have hac2 : ¬ c.toNat < a.toNat := by omega
                simp only [charListLe, if_neg hac1, if_neg hac2]
                exact ih bs cs h1 h2

theorem charListLe_antisymm : ∀ (as bs : List Char),
    charListLe as bs = true → charListLe bs as = true → as = bs := by
  intro as
  induction as with
  | nil =>
    intro bs h1 h2
    cases bs with
    | nil => rfl
    | cons b bs => simp [charListLe] at h2
  | cons a as ih =>
    intro bs h1 h2
    cases bs with
    | nil => simp [charListLe] at h1
    | cons b bs =>
      by_cases hab : a.toNat < b.toNat
      · simp [charListLe, hab, Nat.lt_asymm hab] at h2
      · by_cases hba : b.toNat < a.toNat
        · simp [charListLe, hab, hba] at h1
        · have hchar : a = b := char_toNat_inj (by omega)
          subst hchar
          simp only [charListLe, if_neg hab, if_neg hba] at h1 h2
          rw [ih bs h1 h2]

theorem strLe_antisymm {a b : String} (h1 : strLe a b) (h2 : strLe b a) : a = b :=
  string_data_inj (charListLe_antisymm a.data b.data h1 h2)

theorem sortStrings_sorted (l : List String) : (sortStrings l).Sorted strLe := by
  haveI : IsTotal String strLe := ⟨fun a b => charListLe_total a.data b.data⟩
  haveI : IsTrans String strLe :=
    ⟨fun a b c h1 h2 => charListLe_trans a.data b.data c.data h1 h2⟩
  exact List.sorted_insertionSort strLe l

theorem mem_sortStrings (l : List String) (x : String) : x ∈ sortStrings l ↔ x ∈ l :=
  List.mem_insertionSort strLe

theorem strLtNe_trans (a b c : String) (h1 : strLe a b ∧ a ≠ b) (h2 : strLe b c ∧ b ≠ c) :
    strLe a c ∧ a ≠ c := by
  refine ⟨charListLe_trans a.data b.data c.data h1.1 h2.1, ?_⟩
  intro heq
  subst heq
  exact h1.2 (strLe_antisymm h1.1 h2.1)

theorem dedupConsecGo_cons (l : List String) : ∀ a, ∃ t, dedupConsecGo a l = a :: t := by
  induction l with
  | nil => intro a; exact ⟨[], rfl⟩
  | cons b l ih =>
    intro a
    by_cases h : a = b
    · obtain ⟨t, ht⟩ := ih a
      refine ⟨t, ?_⟩
      simp only [dedupConsecGo]
      rw [if_pos h, ht]
    · refine ⟨dedupConsecGo b l, ?_⟩
      simp only [dedupConsecGo]
      rw [if_neg h]

theorem chain'_dedupConsecGo (l : List String) :
    ∀ a, List.Chain' strLe (a :: l) →
      List.Chain' (fun x y => strLe x y ∧ x ≠ y) (dedupConsecGo a l) := by
  induction l with
  | nil => intro a _; simp [dedupConsecGo]
  | cons b l ih =>
    intro a hchain
    rw [List.chain'_cons] at hchain
    obtain ⟨hab, hbl⟩ := hchain
    by_cases h : a = b
    · simp only [dedupConsecGo, if_pos h]
      exact ih a (by rw [h]; exact hbl)
    · simp only [dedupConsecGo, if_neg h]
      have hrest := ih b hbl
      obtain ⟨t, ht⟩ := dedupConsecGo_cons l b
      rw [ht] at hrest ⊢
      exact List.chain'_cons.mpr ⟨⟨hab, h⟩, hrest⟩

theorem mem_dedupConsecGo (l : List String) :
    ∀ a x, x ∈ dedupConsecGo a l ↔ x = a ∨ x ∈ l := by
  induction l with
  | nil => intro a x; simp [dedupConsecGo]
  | cons b l ih =>
    intro a x
    by_cases h : a = b
    · simp only [dedupConsecGo, if_pos h]
      rw [ih a x]
      subst h
      simp only [List.mem_cons]
      tauto
    · simp only [dedupConsecGo, if_neg h, List.mem_cons]
      rw [ih b x]

theorem nodup_dedupConsec_sorted (l : List String) (h : l.Sorted strLe) :
    (dedupConsec l).Nodup := by
  cases l with
  | nil => simp [dedupConsec]
  | cons a l =>
    simp only [dedupConsec]
    have hlt := chain'_dedupConsecGo l a (List.Pairwise.chain' h)
    haveI : IsTrans String (fun x y => strLe x y ∧ x ≠ y) :=
      ⟨fun a b c h1 h2 => strLtNe_trans a b c h1 h2⟩
    have hp := List.chain'_iff_pairwise.mp hlt
    exact hp.imp (fun hxy => hxy.2)

theorem mem_dedupConsec (l : List String) (x : String) : x ∈ dedupConsec l ↔ x ∈ l := by
  cases l with
  | nil => simp [dedupConsec]
  | cons a l =>
    simp only [dedupConsec]
    rw [mem_dedupConsecGo l a x]
    simp [List.mem_cons]

theorem push_databases_nodup (db : Database) (names : List String) :
    (db.push_databases names).databases.Nodup :=
  nodup_dedupConsec_sorted _ (sortStrings_sorted _)

theorem mem_push_databases (db : Database) (names : List String) (x : String) :
    x ∈ (db.push_databases names).databases ↔ x ∈ db.databases ∨ x ∈ names := by
  show x ∈ dedupConsec (sortStrings (db.databases ++ names)) ↔ _
  rw [mem_dedupConsec, mem_sortStrings, List.mem_append]

theorem push_databases_nonDatabasesFields (db : Database) (names : List String) :
    (db.push_databases names).nonDatabasesFields = db.nonDatabasesFields := rfl

theorem foldl_push_nonDatabasesFields (rest : List Database) :
    ∀ acc : Database,
      (rest.foldl (fun a db => a.push_databases db.databases) acc).nonDatabasesFields
        = acc.nonDatabasesFields := by
  induction rest with
  | nil => intro acc; rfl
  | cons d rest ih =>
    intro acc
    simp only [List.foldl_cons]
    exact ih (acc.push_databases d.databases)

theorem mem_foldl_push (rest : List Database) :
    ∀ (acc : Database) (x : String),
      x ∈ (rest.foldl (fun a db => a.push_databases db.databases) acc).databases ↔
        x ∈ acc.databases ∨ ∃ d ∈ rest, x ∈ d.databases := by
  induction rest with
  | nil => intro acc x; simp
  | cons d rest ih =>
    intro acc x
    simp only [List.foldl_cons]
    rw [ih (acc.push_databases d.databases) x, mem_push_databases]
    simp only [List.mem_cons]
    constructor
    · rintro ((hx | hx) | ⟨d2, hd2, hx⟩)
      · exact Or.inl hx
      · exact Or.inr ⟨d, Or.inl rfl, hx⟩
      · exact Or.inr ⟨d2, Or.inr hd2, hx⟩
    · rintro (hx | ⟨d2, (rfl | hd2), hx⟩)
      · exact Or.inl (Or.inl hx)
      · exact Or.inl (Or.inr hx)
      · exact Or.inr ⟨d2, hd2, hx⟩

theorem joinAndPropagate_ok_iff
    (l : List (Except String (Except PgBouncerError Database))) :
    joinAndPropagate l = .ok () ↔ ∀ r ∈ l, taskOk r = true := by
  induction l with
  | nil => simp [joinAndPropagate]
  | cons r rest ih =>
    cases r with
    | error e => simp [joinAndPropagate, taskOk]
    | ok inner =>
      cases inner with
      | error e => simp [joinAndPropagate, taskOk]
      | ok db => simp [joinAndPropagate, taskOk, ih]

theorem joinAndPropagate_first_err
    (pre : List (Except String (Except PgBouncerError Database)))
    (fail : Except String (Except PgBouncerError Database))
    (post : List (Except String (Except PgBouncerError Database)))
    (hpre : ∀ r ∈ pre, taskOk r = true) (hfail : taskOk fail = false) :
    joinAndPropagate (pre ++ fail :: post) = .error (taskErr fail) := by
  induction pre with
  | nil =>
    cases fail with
    | error e => rfl
    | ok inner =>
      cases inner with
      | error e => rfl
      | ok db => simp [taskOk] at hfail
  | cons r pre ih =>
    have hr : taskOk r = true := hpre r (by simp)
    cases r with
    | error e => simp [taskOk] at hr
    | ok inner =>
      cases inner with
      | error e => simp [taskOk] at hr
      | ok db =>
        simp only [List.cons_append, joinAndPropagate]
        exact ih (fun x hx => hpre x (by simp [hx]))

/-- C1: the claim states that when every spawned discovery task succeeds,
`add_database_from_hosts` returns success and each processed Route's `databases`
set in the collection becomes the sorted, deduplicated union of its previous
contents and the discovered names, merged in place. Evaluating the embedding on a
collection with one Route (host h, port 5432, user u, password p, databases [a])
whose task joins and discovers [b]: the call returns `Ok(())`, the task's clone
does compute the merged list [a, b], but the collection after the call still holds
the original Route with databases [a] — the merge happens only on a dropped clone
and is never written back, contradicting the claim's in-place-merge requirement. -/
theorem C1_discovery_eval :
    (DatabasesSetting.add_database_from_hosts
        { databases := [Database.new "h" 5432 "u" "p" (some ["a"])] } none
        (fun _ => .ok (.ok ["b"]))).1 = .ok () ∧
    (DatabasesSetting.add_database_from_hosts
        { databases := [Database.new "h" 5432 "u" "p" (some ["a"])] } none
        (fun _ => .ok (.ok ["b"]))).2
      = { databases := [Database.new "h" 5432 "u" "p" (some ["a"])] } ∧
    DatabasesSetting.taskResults
        { databases := [Database.new "h" 5432 "u" "p" (some ["a"])] } none
        (fun _ => .ok (.ok ["b"]))
      = [.ok (.ok (Database.new "h" 5432 "u" "p" (some ["a", "b"])))] ∧
    (Database.new "h" 5432 "u" "p" (some ["a"])).databases ≠ ["a", "b"] := by
  refine ⟨rfl, rfl, by decide, by decide⟩

/-- C2: the claim states that after adding a Route (H, 1, U, W, databases [a]) and
then another Route with the same backend identity (H, 1, U, W) and databases
[a, b], the collection holds exactly one entry for that backend, with the union
[a, b]. Evaluating the embedding of `add_database`: the collection ends with TWO
entries for that backend — the stale original with [a] and a newly pushed merged
entry with [a, b] — because the colliding originals are never removed when the
merged entry is pushed. -/
theorem C2_merge_eval :
    ((DatabasesSetting.new.add_database
        (Database.new "H" 1 "U" "W" (some ["a"]))).add_database
        (Database.new "H" 1 "U" "W" (some ["a", "b"]))).databases
      = [Database.new "H" 1 "U" "W" (some ["a"]),
         Database.new "H" 1 "U" "W" (some ["a", "b"])] ∧
    (((DatabasesSetting.new.add_database
        (Database.new "H" 1 "U" "W" (some ["a"]))).add_database
        (Database.new "H" 1 "U" "W" (some ["a", "b"]))).databases.filter
      (fun db => sameBackend db (Database.new "H" 1 "U" "W" (some ["a", "b"])))).length
      = 2 := by
  refine ⟨by decide, by decide⟩

/-- C3 counterexample: a concrete tunnel-open attempt in which the transport
connection to the bastion succeeds and the remote explicitly rejects the Password
credential (`AuthResult.success()` is false). `run` returns the generic
`Connection` variant (with an authentication message), not the dedicated `SshAuth`
variant — refuting the claim that the dedicated variant is returned and the
`Connection` variant never is. -/
theorem C3_auth_counterexample :
    SSHTunnel.run
        { bastion_host := "bastion", bastion_port := 22, bastion_user := "alice",
          bastion_auth := .Password "wrong", local_port := 0,
          pg_host := "db.internal", pg_port := 5432 }
        { connect := .ok (), decode_secret_key := .ok (), load_secret_key := .ok (),
          authenticate := .ok false, bind := .ok { ip := "127.0.0.1", port := 40000 } }
      = .error (.Connection "Authentication failed for user alice") ∧
    runReturnsConnection (SSHTunnel.run
        { bastion_host := "bastion", bastion_port := 22, bastion_user := "alice",
          bastion_auth := .Password "wrong", local_port := 0,
          pg_host := "db.internal", pg_port := 5432 }
        { connect := .ok (), decode_secret_key := .ok (), load_secret_key := .ok (),
          authenticate := .ok false, bind := .ok { ip := "127.0.0.1", port := 40000 } })
      = true ∧
    runReturnsSshAuth (SSHTunnel.run
        { bastion_host := "bastion", bastion_port := 22, bastion_user := "alice",
          bastion_auth := .Password "wrong", local_port := 0,
          pg_host := "db.internal", pg_port := 5432 }
        { connect := .ok (), decode_secret_key := .ok (), load_secret_key := .ok (),
          authenticate := .ok false, bind := .ok { ip := "127.0.0.1", port := 40000 } })
      = false := by
  refine ⟨by decide, by decide, by decide⟩

/-- C3 amended: for every tunnel-open attempt in which the transport connection
succeeds, any key material decodes/loads, and the remote explicitly rejects the
supplied credential, `run` returns the generic `Connection` variant carrying the
message "Authentication failed for user {user}"; and no outcome of `run` is ever
the dedicated `SshAuth` variant (that variant is declared in `error.rs` but never
constructed). -/
theorem C3_auth_amended (t : SSHTunnel) (env : SshRunEnv) :
    (env.connect = .ok () → env.decode_secret_key = .ok () →
      env.load_secret_key = .ok () → env.authenticate = .ok false →
      t.run env
        = .error (.Connection ("Authentication failed for user " ++ t.bastion_user))) ∧
    runReturnsSshAuth (t.run env) = false := by
  obtain ⟨hc, hd, hl, ha, hb⟩ := env
  obtain ⟨bhost, bport, buser, bauth, lport, phost, pport⟩ := t
  constructor
  · intro h1 h2 h3 h4
    cases h1; cases h2; cases h3; cases h4
    cases bauth <;> rfl
  · cases bauth <;> cases hc <;> cases hd <;> cases hl <;> cases ha <;> cases hb <;>
      first
        | rfl
        | (rename_i b _; cases b <;> rfl)

/-- C3 witness: the amended theorem applied to a concrete key-file tunnel whose
transport connect, key load and handshake all complete and whose credential is
rejected. -/
theorem C3_auth_amended_witness :
    SSHTunnel.run
        { bastion_host := "jump.example", bastion_port := 2222, bastion_user := "bob",
          bastion_auth := .LocalSSHKeyFile "/home/bob/.ssh/key" none, local_port := 0,
          pg_host := "pg.internal", pg_port := 5432 }
        { connect := .ok (), decode_secret_key := .ok (), load_secret_key := .ok (),
          authenticate := .ok false, bind := .ok { ip := "127.0.0.1", port := 41000 } }
      = .error (.Connection ("Authentication failed for user " ++ "bob")) ∧
    runReturnsSshAuth (SSHTunnel.run
        { bastion_host := "jump.example", bastion_port := 2222, bastion_user := "bob",
          bastion_auth := .LocalSSHKeyFile "/home/bob/.ssh/key" none, local_port := 0,
          pg_host := "pg.internal", pg_port := 5432 }
        { connect := .ok (), decode_secret_key := .ok (), load_secret_key := .ok (),
          authenticate := .ok false, bind := .ok { ip := "127.0.0.1", port := 41000 } })
      = false :=
  ⟨(C3_auth_amended
      { bastion_host := "jump.example", bastion_port := 2222, bastion_user := "bob",
        bastion_auth := .LocalSSHKeyFile "/home/bob/.ssh/key" none, local_port := 0,
        pg_host := "pg.internal", pg_port := 5432 }
      { connect := .ok (), decode_secret_key := .ok (), load_secret_key := .ok (),
        authenticate := .ok false, bind := .ok { ip := "127.0.0.1", port := 41000 } }).1
      rfl rfl rfl rfl,
   (C3_auth_amended
      { bastion_host := "jump.example", bastion_port := 2222, bastion_user := "bob",
        bastion_auth := .LocalSSHKeyFile "/home/bob/.ssh/key" none, local_port := 0,
        pg_host := "pg.internal", pg_port := 5432 }
      { connect := .ok (), decode_secret_key := .ok (), load_secret_key := .ok (),
        authenticate := .ok false, bind := .ok { ip := "127.0.0.1", port := 41000 } }).2⟩

/-- C4 counterexample: `Database::new` copies its optional initial name list
verbatim, so constructing a Route with the initial list ["a", "a"] yields a
`databases` field that contains a duplicate — refuting the claim that every Route
produced by any public constructor or operation has a duplicate-free `databases`
field. -/
theorem C4_nodup_counterexample :
    ¬ (Database.new "h" 1 "u" "p" (some ["a", "a"])).databases.Nodup := by decide

/-- C4 amended: `push_databases` and `add_database` always leave `databases`
duplicate-free; `Database::new` with no initial list yields the (duplicate-free)
empty list, and with an explicit initial list it preserves duplicate-freedom only
when the provided list is itself duplicate-free (it stores the list verbatim). -/
theorem C4_nodup_amended :
    (∀ (db : Database) (names : List String),
      (db.push_databases names).databases.Nodup) ∧
    (∀ (db : Database) (name : String), (db.add_database name).databases.Nodup) ∧
    (∀ (host : String) (port : Nat) (user password : String),
      (Database.new host port user password none).databases.Nodup) ∧
    (∀ (host : String) (port : Nat) (user password : String) (init : List String),
      init.Nodup → (Database.new host port user password (some init)).databases.Nodup) := by
  refine ⟨?_, ?_, ?_, ?_⟩
  · intro db names
    exact push_databases_nodup db names
  · intro db name
    exact nodup_dedupConsec_sorted _ (sortStrings_sorted _)
  · intro host port user password
    simp [Database.new]
  · intro host port user password init h
    simpa [Database.new] using h

/-- C4 witness: the amended theorem applied at concrete inputs, with the
duplicate-freedom hypothesis on the initial list discharged by evaluation. -/
theorem C4_nodup_amended_witness :
    ((Database.new "h" 1 "u" "p" (some ["y"])).push_databases
      ["x", "y", "x"]).databases.Nodup ∧
    ((Database.new "h" 1 "u" "p" none).add_database "x").databases.Nodup ∧
    (Database.new "h" 1 "u" "p" none).databases.Nodup ∧
    (Database.new "h" 1 "u" "p" (some ["x", "y"])).databases.Nodup :=
  ⟨C4_nodup_amended.1 (Database.new "h" 1 "u" "p" (some ["y"])) ["x", "y", "x"],
   C4_nodup_amended.2.1 (Database.new "h" 1 "u" "p" none) "x",
   C4_nodup_amended.2.2.1 "h" 1 "u" "p",
   C4_nodup_amended.2.2.2 "h" 1 "u" "p" ["x", "y"] (by decide)⟩

/-- C5 counterexample: a call with a PROVIDED host filter — the empty list — and a
Route whose host "h" is not a member of that list. The claim requires the Route to
be skipped (no discovery task spawned), but the embedding of the loop head
processes it: an empty provided filter disables filtering instead of matching
nothing. -/
theorem C5_filter_counterexample :
    DatabasesSetting.processedDatabases
        { databases := [Database.new "h" 1 "u" "p" none] } (some [])
      = [Database.new "h" 1 "u" "p" none] ∧
    (([] : List String).contains "h") = false := by
  refine ⟨by decide, by decide⟩

/-- C5 amended: for every call with a provided NON-EMPTY host filter and every
Route whose host is not a member of that filter, the Route is skipped entirely: no
discovery task is spawned for it, and the collection (hence the Route's
`databases` list) is unchanged by the call. A provided empty filter instead
disables filtering, behaving like no filter. -/
theorem C5_filter_amended (s : DatabasesSetting) (hosts : List String) (db : Database)
    (hne : hosts ≠ []) (hnm : hosts.contains db.host = false) :
    db ∉ s.processedDatabases (some hosts) ∧
    ∀ runTask, (s.add_database_from_hosts (some hosts) runTask).2 = s := by
  constructor
  · intro hmem
    simp only [DatabasesSetting.processedDatabases] at hmem
    have hp := (List.mem_filter.mp hmem).2
    have hlen : hosts.length > 0 := List.length_pos.mpr hne
    simp [hlen] at hp
    exact absurd hp (by simpa using hnm)
  · intro runTask
    rfl

/-- C5 witness: the amended theorem applied to a one-Route collection and the
non-empty filter ["x"], which does not contain the Route's host "h". -/
theorem C5_filter_amended_witness :
    (Database.new "h" 1 "u" "p" none) ∉
      DatabasesSetting.processedDatabases
        { databases := [Database.new "h" 1 "u" "p" none] } (some ["x"]) ∧
    (DatabasesSetting.add_database_from_hosts
        { databases := [Database.new "h" 1 "u" "p" none] } (some ["x"])
        (fun _ => .ok (.ok []))).2
      = { databases := [Database.new "h" 1 "u" "p" none] } :=
  ⟨(C5_filter_amended { databases := [Database.new "h" 1 "u" "p" none] } ["x"]
      (Database.new "h" 1 "u" "p" none) (by decide) (by decide)).1,
   (C5_filter_amended { databases := [Database.new "h" 1 "u" "p" none] } ["x"]
      (Database.new "h" 1 "u" "p" none) (by decide) (by decide)).2
     (fun _ => .ok (.ok []))⟩

/-- C6: `add_database_from_hosts` succeeds exactly when every spawned task joined
and its discovery succeeded; and if the list of joined task results splits as
successful prefix, first failing task, remainder, the call returns exactly that
first failure (join failures converted to the `Join` variant, functional errors
propagated as they are) — the first failure observed in the aggregation order. -/
theorem C6_aggregate (s : DatabasesSetting) (target_hosts : Option (List String))
    (runTask : Database → Except String (Except PgBouncerError (List String))) :
    ((s.add_database_from_hosts target_hosts runTask).1 = .ok () ↔
      ∀ r ∈ s.taskResults target_hosts runTask, taskOk r = true) ∧
    (∀ (pre : List (Except String (Except PgBouncerError Database)))
        (fail : Except String (Except PgBouncerError Database))
        (post : List (Except String (Except PgBouncerError Database))),
      s.taskResults target_hosts runTask = pre ++ fail :: post →
      (∀ r ∈ pre, taskOk r = true) → taskOk fail = false →
      (s.add_database_from_hosts target_hosts runTask).1 = .error (taskErr fail)) := by
  constructor
  · exact joinAndPropagate_ok_iff (s.taskResults target_hosts runTask)
  · intro pre fail post heq hpre hfail
    show joinAndPropagate (s.taskResults target_hosts runTask) = _
    rw [heq]
    exact joinAndPropagate_first_err pre fail post hpre hfail

/-- C6 witness: a two-Route collection where the first task succeeds with names
["x"] and the second returns a functional connection error; the call returns that
first-observed failure. -/
theorem C6_aggregate_witness :
    (DatabasesSetting.add_database_from_hosts
        { databases := [Database.new "h1" 1 "u" "p" none,
                        Database.new "h2" 2 "u" "p" none] } none
        (fun db => if db.host == "h1" then .ok (.ok ["x"])
                   else .ok (.error (.Connection "refused")))).1
      = .error (.Connection "refused") :=
  (C6_aggregate
      { databases := [Database.new "h1" 1 "u" "p" none,
                      Database.new "h2" 2 "u" "p" none] } none
      (fun db => if db.host == "h1" then .ok (.ok ["x"])
                 else .ok (.error (.Connection "refused")))).2
    [.ok (.ok (Database.new "h1" 1 "u" "p" (some ["x"])))]
    (.ok (.error (.Connection "refused"))) []
    (by decide) (by decide) (by decide)

/-- C7: converting a TunnelSpec (`SSHTunnelBuilder`) to a runnable `SSHTunnel`
fills unset optional fields with exactly these defaults — bastion port 22, local
port 0 (OS-chosen ephemeral), remote port 5432 — while set values and the
remaining fields (host, user, auth, remote host) are carried over unchanged. -/
theorem C7_builder_defaults (b : SSHTunnelBuilder) :
    (b.port = none → (SSHTunnel.fromBuilder b).bastion_port = 22) ∧
    (∀ p, b.port = some p → (SSHTunnel.fromBuilder b).bastion_port = p) ∧
    (b.local_port = none → (SSHTunnel.fromBuilder b).local_port = 0) ∧
    (∀ p, b.local_port = some p → (SSHTunnel.fromBuilder b).local_port = p) ∧
    (b.remote_port = none → (SSHTunnel.fromBuilder b).pg_port = 5432) ∧
    (∀ p, b.remote_port = some p → (SSHTunnel.fromBuilder b).pg_port = p) ∧
    (SSHTunnel.fromBuilder b).bastion_host = b.host ∧
    (SSHTunnel.fromBuilder b).bastion_user = b.user ∧
    (SSHTunnel.fromBuilder b).bastion_auth = b.auth ∧
    (SSHTunnel.fromBuilder b).pg_host = b.remote_host := by
  refine ⟨fun h => ?_, fun p h => ?_, fun h => ?_, fun p h => ?_, fun h => ?_,
    fun p h => ?_, rfl, rfl, rfl, rfl⟩ <;>
    simp [SSHTunnel.fromBuilder, h]

/-- C7 witness: the defaults theorem applied to a builder with all optional ports
unset (defaults 22, 0, 5432) and to one with all of them set (values carried). -/
theorem C7_builder_defaults_witness :
    (SSHTunnel.fromBuilder
      (SSHTunnelBuilder.new "bastion" "bob" (.Password "pw") "db")).bastion_port = 22 ∧
    (SSHTunnel.fromBuilder
      (SSHTunnelBuilder.new "bastion" "bob" (.Password "pw") "db")).local_port = 0 ∧
    (SSHTunnel.fromBuilder
      (SSHTunnelBuilder.new "bastion" "bob" (.Password "pw") "db")).pg_port = 5432 ∧
    (SSHTunnel.fromBuilder
      { host := "bastion", port := some 2222, user := "bob", auth := .Password "pw",
        local_port := some 15432, remote_host := "db",
        remote_port := some 5433 }).bastion_port = 2222 ∧
    (SSHTunnel.fromBuilder
      { host := "bastion", port := some 2222, user := "bob", auth := .Password "pw",
        local_port := some 15432, remote_host := "db",
        remote_port := some 5433 }).local_port = 15432 ∧
    (SSHTunnel.fromBuilder
      { host := "bastion", port := some 2222, user := "bob", auth := .Password "pw",
        local_port := some 15432, remote_host := "db",
        remote_port := some 5433 }).pg_port = 5433 :=
  ⟨(C7_builder_defaults (SSHTunnelBuilder.new "bastion" "bob" (.Password "pw") "db")).1
     rfl,
   (C7_builder_defaults (SSHTunnelBuilder.new "bastion" "bob" (.Password "pw") "db")).2.2.1
     rfl,
   (C7_builder_defaults (SSHTunnelBuilder.new "bastion" "bob" (.Password "pw") "db")).2.2.2.2.1
     rfl,
   (C7_builder_defaults
     { host := "bastion", port := some 2222, user := "bob", auth := .Password "pw",
       local_port := some 15432, remote_host := "db", remote_port := some 5433 }).2.1
     2222 rfl,
   (C7_builder_defaults
     { host := "bastion", port := some 2222, user := "bob", auth := .Password "pw",
       local_port := some 15432, remote_host := "db", remote_port := some 5433 }).2.2.2.1
     15432 rfl,
   (C7_builder_defaults
     { host := "bastion", port := some 2222, user := "bob", auth := .Password "pw",
       local_port := some 15432, remote_host := "db", remote_port := some 5433 }).2.2.2.2.2.1
     5433 rfl⟩

/-- C8: the session's server-identity check accepts every presented server public
key — `check_server_key` returns `Ok(true)` unconditionally, so this subsystem
performs no host-key verification. -/
theorem C8_check_server_key (key : PublicKey) :
    ClientHandler.check_server_key key = .ok true := rfl

/-- C9: calling `add_database_from_hosts` with `Some` of the empty host list
behaves exactly like calling it with `None`, and the empty filter processes every
Route (it is not treated as match-nothing). -/
theorem C9_empty_filter (s : DatabasesSetting) :
    (∀ runTask, s.add_database_from_hosts (some []) runTask
        = s.add_database_from_hosts none runTask) ∧
    s.processedDatabases (some []) = s.databases := by
  constructor
  · intro runTask
    rfl
  · simp [DatabasesSetting.processedDatabases]

/-- C10: when `add_database` merges colliding Routes, the merged entry takes every
field other than `databases` (host, port, user, password, ignore list, tunnel
spec, credential-output flag — the `nonDatabasesFields` projection) from the first
existing colliding entry, the newly added Route's values for those fields being
discarded; only the `databases` sets are combined (the merged set is the union of
the first entry's set with the sets of the remaining colliding entries and of the
added Route); and the merged entry is the one appended to the collection. -/
theorem C10_merge_fields (s : DatabasesSetting) (database c : Database)
    (cs : List Database)
    (hsame : s.databases.filter (fun db => sameBackend db database) = c :: cs) :
    (s.add_database database).databases
      = s.databases ++ [DatabasesSetting.merge_databases ((c :: cs) ++ [database])] ∧
    (DatabasesSetting.merge_databases ((c :: cs) ++ [database])).nonDatabasesFields
      = c.nonDatabasesFields ∧
    (∀ x, x ∈ (DatabasesSetting.merge_databases ((c :: cs) ++ [database])).databases ↔
      x ∈ c.databases ∨ ∃ d ∈ cs ++ [database], x ∈ d.databases) := by
  refine ⟨?_, ?_, ?_⟩
  · simp [DatabasesSetting.add_database, hsame]
  · exact foldl_push_nonDatabasesFields (cs ++ [database]) c
  · intro x
    exact mem_foldl_push (cs ++ [database]) c x

/-- C10 witness: one existing Route (H, 7, u, p) with databases ["a"] and an added
colliding Route whose non-databases fields all differ (ignore list, tunnel,
credential flag); the merged entry keeps the existing entry's fields and unions the
database sets. -/
theorem C10_merge_fields_witness :
    (DatabasesSetting.add_database
        { databases := [Database.new "H" 7 "u" "p" (some ["a"])] }
        { host := "H", port := 7, user := "u", password := "p", databases := ["b"],
          ignore_databases := ["skipme"],
          ssh_tunneling := some (SSHTunnelBuilder.new "j" "ju" (.Password "w") "r"),
          is_output_credentials_to_config := true }).databases
      = [Database.new "H" 7 "u" "p" (some ["a"])]
        ++ [DatabasesSetting.merge_databases
              (([Database.new "H" 7 "u" "p" (some ["a"])] : List Database)
                ++ [{ host := "H", port := 7, user := "u", password := "p",
                      databases := ["b"], ignore_databases := ["skipme"],
                      ssh_tunneling := some (SSHTunnelBuilder.new "j" "ju"
                        (.Password "w") "r"),
                      is_output_credentials_to_config := true }])] ∧
    (DatabasesSetting.merge_databases
        (([Database.new "H" 7 "u" "p" (some ["a"])] : List Database)
          ++ [{ host := "H", port := 7, user := "u", password := "p",
                databases := ["b"], ignore_databases := ["skipme"],
                ssh_tunneling := some (SSHTunnelBuilder.new "j" "ju"
                  (.Password "w") "r"),
                is_output_credentials_to_config := true }])).nonDatabasesFields
      = (Database.new "H" 7 "u" "p" (some ["a"])).nonDatabasesFields ∧
    ("b" ∈ (DatabasesSetting.merge_databases
        (([Database.new "H" 7 "u" "p" (some ["a"])] : List Database)
          ++ [{ host := "H", port := 7, user := "u", password := "p",
                databases := ["b"], ignore_databases := ["skipme"],
                ssh_tunneling := some (SSHTunnelBuilder.new "j" "ju"
                  (.Password "w") "r"),
                is_output_credentials_to_config := true }])).databases ↔
      "b" ∈ (Database.new "H" 7 "u" "p" (some ["a"])).databases ∨
        ∃ d ∈ ([] : List Database)
            ++ [{ host := "H", port := 7, user := "u", password := "p",
                  databases := ["b"], ignore_databases := ["skipme"],
                  ssh_tunneling := some (SSHTunnelBuilder.new "j" "ju"
                    (.Password "w") "r"),
                  is_output_credentials_to_config := true }], "b" ∈ d.databases) :=
  ⟨(C10_merge_fields { databases := [Database.new "H" 7 "u" "p" (some ["a"])] }
      { host := "H", port := 7, user := "u", password := "p", databases := ["b"],
        ignore_databases := ["skipme"],
        ssh_tunneling := some (SSHTunnelBuilder.new "j" "ju" (.Password "w") "r"),
        is_output_credentials_to_config := true }
      (Database.new "H" 7 "u" "p" (some ["a"])) [] (by decide)).1,
   (C10_merge_fields { databases := [Database.new "H" 7 "u" "p" (some ["a"])] }
      { host := "H", port := 7, user := "u", password := "p", databases := ["b"],
        ignore_databases := ["skipme"],
        ssh_tunneling := some (SSHTunnelBuilder.new "j" "ju" (.Password "w") "r"),
        is_output_credentials_to_config := true }
      (Database.new "H" 7 "u" "p" (some ["a"])) [] (by decide)).2.1,
   (C10_merge_fields { databases := [Database.new "H" 7 "u" "p" (some ["a"])] }
      { host := "H", port := 7, user := "u", password := "p", databases := ["b"],
        ignore_databases := ["skipme"],
        ssh_tunneling := some (SSHTunnelBuilder.new "j" "ju" (.Password "w") "r"),
        is_output_credentials_to_config := true }
      (Database.new "H" 7 "u" "p" (some ["a"])) [] (by decide)).2.2 "b"⟩
